import Mathlib

/-!
Shallow embedding of the unsafety-violation diagnostic subsystem of
`compiler/rustc_mir_transform/src/errors.rs`, together with the proofs of the
behavioural claims about it.

Modelling conventions:
* a source span is a pair of byte positions;
* `DiagnosticBuilder` becomes the record `Diag`; each mutating method of the
  builder becomes a state-passing function appending to the corresponding
  field;
* fluent message keys become string constants carrying the key's own name;
* the handler's `eagerly_translate_to_string` is an abstract parameter
  `translate : String → String` of the assembly functions.
-/

namespace MirTransform

/-- A source span: a start and an end byte position. -/
structure Span where
  lo : Nat
  hi : Nat
deriving DecidableEq

/-- Model of `rustc_errors::DiagnosticArgValue`. -/
inductive DiagnosticArgValue where
  | str : String → DiagnosticArgValue
  | boolean : Bool → DiagnosticArgValue
  | num : Nat → DiagnosticArgValue
  | strListSepByAnd : List String → DiagnosticArgValue
deriving DecidableEq

/-- Model of `rustc_errors::Applicability`. -/
inductive Applicability where
  | machineApplicable
  | maybeIncorrect
  | hasPlaceholders
  | unspecified
deriving DecidableEq

/-- One attached code suggestion: message key, list of (span, replacement)
edits, applicability, and whether it is tool-only. -/
structure CodeSuggestion where
  msg : String
  substitutions : List (Span × String)
  applicability : Applicability
  toolOnly : Bool
deriving DecidableEq

/-- Model of the diagnostic record under construction
(`rustc_errors::DiagnosticBuilder`).  Every mutating method of the builder
becomes a pure function from `Diag` to `Diag`. -/
structure Diag where
  message : String
  code : Option String := none
  primarySpan : Option Span := none
  labels : List (Span × String) := []
  args : List (String × DiagnosticArgValue) := []
  notes : List String := []
  helps : List String := []
  spanNotes : List (Span × String) := []
  suggestions : List CodeSuggestion := []
deriving DecidableEq

/-- `DiagnosticBuilder::code`. -/
def Diag.withCode (d : Diag) (c : String) : Diag :=
  { d with code := some c }

/-- `DiagnosticBuilder::set_span`. -/
def Diag.set_span (d : Diag) (sp : Span) : Diag :=
  { d with primarySpan := some sp }

/-- `DiagnosticBuilder::span_label`. -/
def Diag.span_label (d : Diag) (sp : Span) (msg : String) : Diag :=
  { d with labels := d.labels ++ [(sp, msg)] }

/-- `DiagnosticBuilder::set_arg`. -/
def Diag.set_arg (d : Diag) (name : String) (v : DiagnosticArgValue) : Diag :=
  { d with args := d.args ++ [(name, v)] }

/-- `DiagnosticBuilder::note`. -/
def Diag.note (d : Diag) (msg : String) : Diag :=
  { d with notes := d.notes ++ [msg] }

/-- `DiagnosticBuilder::help`. -/
def Diag.help (d : Diag) (msg : String) : Diag :=
  { d with helps := d.helps ++ [msg] }

/-- `DiagnosticBuilder::span_note`. -/
def Diag.span_note (d : Diag) (sp : Span) (msg : String) : Diag :=
  { d with spanNotes := d.spanNotes ++ [(sp, msg)] }

/-- `DiagnosticBuilder::tool_only_multipart_suggestion`. -/
def Diag.tool_only_multipart_suggestion (d : Diag) (msg : String)
    (subs : List (Span × String)) (app : Applicability) : Diag :=
  { d with suggestions := d.suggestions ++ [⟨msg, subs, app, true⟩] }

namespace fluent

def mir_transform_requires_unsafe : String := "mir_transform_requires_unsafe"
def mir_transform_not_inherited : String := "mir_transform_not_inherited"
def mir_transform_call_to_unsafe_note : String := "mir_transform_call_to_unsafe_note"
def mir_transform_use_of_asm_note : String := "mir_transform_use_of_asm_note"
def mir_transform_initializing_valid_range_note : String := "mir_transform_initializing_valid_range_note"
def mir_transform_const_ptr2int_note : String := "mir_transform_const_ptr2int_note"
def mir_transform_use_of_static_mut_note : String := "mir_transform_use_of_static_mut_note"
def mir_transform_use_of_extern_static_note : String := "mir_transform_use_of_extern_static_note"
def mir_transform_deref_ptr_note : String := "mir_transform_deref_ptr_note"
def mir_transform_union_access_note : String := "mir_transform_union_access_note"
def mir_transform_mutation_layout_constrained_note : String := "mir_transform_mutation_layout_constrained_note"
def mir_transform_mutation_layout_constrained_borrow_note : String := "mir_transform_mutation_layout_constrained_borrow_note"
def mir_transform_target_feature_call_help : String := "mir_transform_target_feature_call_help"
def mir_transform_target_feature_call_note : String := "mir_transform_target_feature_call_note"
def mir_transform_call_to_unsafe_label : String := "mir_transform_call_to_unsafe_label"
def mir_transform_use_of_asm_label : String := "mir_transform_use_of_asm_label"
def mir_transform_initializing_valid_range_label : String := "mir_transform_initializing_valid_range_label"
def mir_transform_const_ptr2int_label : String := "mir_transform_const_ptr2int_label"
def mir_transform_use_of_static_mut_label : String := "mir_transform_use_of_static_mut_label"
def mir_transform_use_of_extern_static_label : String := "mir_transform_use_of_extern_static_label"
def mir_transform_deref_ptr_label : String := "mir_transform_deref_ptr_label"
def mir_transform_union_access_label : String := "mir_transform_union_access_label"
def mir_transform_mutation_layout_constrained_label : String := "mir_transform_mutation_layout_constrained_label"
def mir_transform_mutation_layout_constrained_borrow_label : String := "mir_transform_mutation_layout_constrained_borrow_label"
def mir_transform_target_feature_call_label : String := "mir_transform_target_feature_call_label"
def mir_transform_unsafe_op_in_unsafe_fn : String := "mir_transform_unsafe_op_in_unsafe_fn"
def mir_transform_note : String := "mir_transform_note"
def mir_transform_suggestion : String := "mir_transform_suggestion"
def mir_transform_arithmetic_overflow : String := "mir_transform_arithmetic_overflow"
def mir_transform_operation_will_panic : String := "mir_transform_operation_will_panic"

end fluent

/-- Model of `rustc_middle::mir::UnsafetyViolationDetails`: the closed
taxonomy of unsafe operations; only `CallToFunctionWith` carries data. -/
inductive UnsafetyViolationDetails where
  | CallToUnsafeFunction
  | UseOfInlineAssembly
  | InitializingTypeWith
  | CastOfPointerToInt
  | UseOfMutableStatic
  | UseOfExternStatic
  | DerefOfRawPointer
  | AccessToUnionField
  | MutationOfLayoutConstrainedField
  | BorrowOfLayoutConstrainedField
  | CallToFunctionWith (missing : List String) (build_enabled : List String)
deriving DecidableEq

/-- Model of `RequiresUnsafeDetail` (errors.rs line 84). -/
structure RequiresUnsafeDetail where
  span : Span
  violation : UnsafetyViolationDetails
deriving DecidableEq

/-- `RequiresUnsafeDetail::label` (errors.rs line 149). -/
def RequiresUnsafeDetail.label (self : RequiresUnsafeDetail) : String :=
  match self.violation with
  | .CallToUnsafeFunction => fluent.mir_transform_call_to_unsafe_label
  | .UseOfInlineAssembly => fluent.mir_transform_use_of_asm_label
  | .InitializingTypeWith => fluent.mir_transform_initializing_valid_range_label
  | .CastOfPointerToInt => fluent.mir_transform_const_ptr2int_label
  | .UseOfMutableStatic => fluent.mir_transform_use_of_static_mut_label
  | .UseOfExternStatic => fluent.mir_transform_use_of_extern_static_label
  | .DerefOfRawPointer => fluent.mir_transform_deref_ptr_label
  | .AccessToUnionField => fluent.mir_transform_union_access_label
  | .MutationOfLayoutConstrainedField => fluent.mir_transform_mutation_layout_constrained_label
  | .BorrowOfLayoutConstrainedField => fluent.mir_transform_mutation_layout_constrained_borrow_label
  | .CallToFunctionWith _ _ => fluent.mir_transform_target_feature_call_label

/-- `RequiresUnsafeDetail::add_subdiagnostics` (errors.rs line 90). -/
def RequiresUnsafeDetail.add_subdiagnostics (self : RequiresUnsafeDetail) (diag : Diag) : Diag :=
  match self.violation with
  | .CallToUnsafeFunction => diag.note fluent.mir_transform_call_to_unsafe_note
  | .UseOfInlineAssembly => diag.note fluent.mir_transform_use_of_asm_note
  | .InitializingTypeWith => diag.note fluent.mir_transform_initializing_valid_range_note
  | .CastOfPointerToInt => diag.note fluent.mir_transform_const_ptr2int_note
  | .UseOfMutableStatic => diag.note fluent.mir_transform_use_of_static_mut_note
  | .UseOfExternStatic => diag.note fluent.mir_transform_use_of_extern_static_note
  | .DerefOfRawPointer => diag.note fluent.mir_transform_deref_ptr_note
  | .AccessToUnionField => diag.note fluent.mir_transform_union_access_note
  | .MutationOfLayoutConstrainedField =>
      diag.note fluent.mir_transform_mutation_layout_constrained_note
  | .BorrowOfLayoutConstrainedField =>
      diag.note fluent.mir_transform_mutation_layout_constrained_borrow_note
  | .CallToFunctionWith missing build_enabled =>
      let diag := diag.help fluent.mir_transform_target_feature_call_help
      let diag := diag.set_arg "missing_target_features"
        (.strListSepByAnd missing)
      let diag := diag.set_arg "missing_target_features_count" (.num missing.length)
      if !build_enabled.isEmpty then
        let diag := diag.note fluent.mir_transform_target_feature_call_note
        let diag := diag.set_arg "build_target_features"
          (.strListSepByAnd build_enabled)
        diag.set_arg "build_target_features_count" (.num build_enabled.length)
      else diag

/-- Model of `RequiresUnsafe` (errors.rs line 54). -/
structure RequiresUnsafe where
  span : Span
  details : RequiresUnsafeDetail
  enclosing : Option Span
  op_in_unsafe_fn_allowed : Bool
deriving DecidableEq

/-- `RequiresUnsafe::into_diagnostic` (errors.rs line 65).  `translate`
stands for the handler's `eagerly_translate_to_string`. -/
def RequiresUnsafe.into_diagnostic (translate : String → String)
    (self : RequiresUnsafe) : Diag :=
  let diag : Diag := { message := fluent.mir_transform_requires_unsafe }
  let diag := diag.withCode "E0133"
  let diag := diag.set_span self.span
  let diag := diag.span_label self.span self.details.label
  let desc := translate self.details.label
  let diag := diag.set_arg "details" (.str desc)
  let diag := diag.set_arg "op_in_unsafe_fn_allowed"
    (.boolean self.op_in_unsafe_fn_allowed)
  let diag := self.details.add_subdiagnostics diag
  match self.enclosing with
  | some sp => diag.span_label sp fluent.mir_transform_not_inherited
  | none => diag

/-- Model of `UnsafeOpInUnsafeFn` (errors.rs line 171).  The optional triple
holds (start of the function body, end of the function body, the function
signature). -/
structure UnsafeOpInUnsafeFn where
  details : RequiresUnsafeDetail
  suggest_unsafe_block : Option (Span × Span × Span)
deriving DecidableEq

/-- `<UnsafeOpInUnsafeFn as DecorateLint>::msg` (errors.rs line 205). -/
def UnsafeOpInUnsafeFn.msg (_ : UnsafeOpInUnsafeFn) : String :=
  fluent.mir_transform_unsafe_op_in_unsafe_fn

/-- `<UnsafeOpInUnsafeFn as DecorateLint>::decorate_lint` (errors.rs
line 181).  `translate` stands for the handler's
`eagerly_translate_to_string`. -/
def UnsafeOpInUnsafeFn.decorate_lint (translate : String → String)
    (self : UnsafeOpInUnsafeFn) (diag : Diag) : Diag :=
  let desc := translate self.details.label
  let diag := diag.set_arg "details" (.str desc)
  let diag := diag.span_label self.details.span self.details.label
  let diag := self.details.add_subdiagnostics diag
  match self.suggest_unsafe_block with
  | some (start, stop, fn_sig) =>
      let diag := diag.span_note fn_sig fluent.mir_transform_note
      diag.tool_only_multipart_suggestion fluent.mir_transform_suggestion
        [(start, " unsafe \x7b"), (stop, "\x7d")] .maybeIncorrect
  | none => diag

/-- Modelled from the spec: `rustc_middle::mir::AssertKind` is declared in
the MIR crate, outside src/; per the spec (§2, §9) the panic payload is a
capability interface exposing a renderable diagnostic message and the
(name, value) argument pairs it supplies to the assembler, generic over the
operand type `P`. -/
structure AssertKind (P : Type) where
  diagnostic_message : String
  argPairs : List (String × DiagnosticArgValue)
deriving DecidableEq

/-- Model of the two builtin lint identifiers referenced by `AssertLint::lint`
(`rustc_session::lint::builtin`), part of the stable compatibility surface. -/
inductive BuiltinLint where
  | ARITHMETIC_OVERFLOW
  | UNCONDITIONAL_PANIC
deriving DecidableEq

/-- Model of `AssertLint` (errors.rs line 210). -/
inductive AssertLint (P : Type) where
  | ArithmeticOverflow : Span → AssertKind P → AssertLint P
  | UnconditionalPanic : Span → AssertKind P → AssertLint P

/-- `AssertLint::lint` (errors.rs line 240). -/
def AssertLint.lint {P : Type} : AssertLint P → BuiltinLint
  | .ArithmeticOverflow _ _ => .ARITHMETIC_OVERFLOW
  | .UnconditionalPanic _ _ => .UNCONDITIONAL_PANIC

/-- `AssertLint::span` (errors.rs line 246). -/
def AssertLint.span {P : Type} : AssertLint P → Span
  | .ArithmeticOverflow sp _ => sp
  | .UnconditionalPanic sp _ => sp

/-- `AssertLint::panic` (errors.rs line 251). -/
def AssertLint.panic {P : Type} : AssertLint P → AssertKind P
  | .ArithmeticOverflow _ p => p
  | .UnconditionalPanic _ p => p

/-- `<AssertLint as DecorateLint>::msg` (errors.rs line 231). -/
def AssertLint.msg {P : Type} : AssertLint P → String
  | .ArithmeticOverflow _ _ => fluent.mir_transform_arithmetic_overflow
  | .UnconditionalPanic _ _ => fluent.mir_transform_operation_will_panic

/-- `<AssertLint as DecorateLint>::decorate_lint` (errors.rs line 216):
forwards every argument pair the payload supplies via `set_arg`, then labels
the stored span with the payload's own diagnostic message. -/
def AssertLint.decorate_lint {P : Type} (self : AssertLint P) (diag : Diag) : Diag :=
  let sp := self.span
  let assert_kind := self.panic
  let message := assert_kind.diagnostic_message
  let diag := assert_kind.argPairs.foldl
    (fun d nv => d.set_arg nv.1 nv.2) diag
  diag.span_label sp message

/-- Model of the classification outcome (spec §3, `ClassificationOutcome`). -/
inductive ClassificationOutcome where
  | HardError
  | Lint
  | Permitted
deriving DecidableEq

/-- Modelled from the spec: the Classifier (spec §4.2) lives in the
unsafety-check walker, which is not under src/ (src/ holds only the
diagnostic definitions it feeds).  Per the spec's decision table, the
decision is a function of the two context booleans only; the violation kind
is accepted but never consulted. -/
def classify (_kind : UnsafetyViolationDetails)
    (enclosing_is_unsafe_fn : Bool)
    (unsafe_op_in_unsafe_fn_allowed : Bool) : ClassificationOutcome :=
  if !enclosing_is_unsafe_fn then .HardError
  else if !unsafe_op_in_unsafe_fn_allowed then .Lint
  else .Permitted

/-- Modelled from the spec: construction of `CallToFunctionWith` violation
records happens in the violation-discovery walker, which is not under src/.
Per spec §7, an empty `missing_features` list is a caller contract violation
rejected at construction time at assertion/panic level (modelled as
`Except.error`) rather than silently rendered. -/
def mkCallToFunctionWith (missing build_enabled : List String) :
    Except String UnsafetyViolationDetails :=
  if missing.isEmpty then
    .error "assertion failed: CallToFunctionWith requires a non-empty missing_features list"
  else
    .ok (.CallToFunctionWith missing build_enabled)

/-- Modelled from the spec: the UnsafeBlockSuggester's computation of the
insertion-point triple is performed by the walker, not under src/ (src/
holds only `UnsafeOpInUnsafeFn::decorate_lint`, its consumer).  Per spec
§2/§4.3 it places the opening token at the start of the function body (right
after the signature) and the closing token at the body's end, anchored by
the signature span; the insertion points are empty spans at those two
positions. -/
def UnsafeBlockSuggester.suggest (body fn_sig : Span) : Span × Span × Span :=
  (⟨body.lo, body.lo⟩, ⟨body.hi, body.hi⟩, fn_sig)

/-- `add_subdiagnostics` only ever appends notes, help messages and
arguments; every other field of the builder is left untouched. -/
theorem RequiresUnsafeDetail.add_subdiagnostics_effect
    (self : RequiresUnsafeDetail) (d : Diag) :
    ∃ ns hs as_, self.add_subdiagnostics d =
      { d with
        notes := d.notes ++ ns,
        helps := d.helps ++ hs,
        args := d.args ++ as_ } := by
  rcases self with ⟨sp, v⟩
  cases v with
  | CallToFunctionWith missing build_enabled =>
      cases build_enabled with
      | nil =>
          exact ⟨[], [fluent.mir_transform_target_feature_call_help],
            [("missing_target_features", .strListSepByAnd missing),
             ("missing_target_features_count", .num missing.length)],
            by simp [RequiresUnsafeDetail.add_subdiagnostics, Diag.help, Diag.set_arg]⟩
      | cons b bs =>
          exact ⟨[fluent.mir_transform_target_feature_call_note],
            [fluent.mir_transform_target_feature_call_help],
            [("missing_target_features", .strListSepByAnd missing),
             ("missing_target_features_count", .num missing.length),
             ("build_target_features", .strListSepByAnd (b :: bs)),
             ("build_target_features_count", .num (b :: bs).length)],
            by simp [RequiresUnsafeDetail.add_subdiagnostics, Diag.help, Diag.set_arg,
              Diag.note]⟩
  | CallToUnsafeFunction =>
      exact ⟨[fluent.mir_transform_call_to_unsafe_note], [], [],
        by simp [RequiresUnsafeDetail.add_subdiagnostics, Diag.note]⟩
  | UseOfInlineAssembly =>
      exact ⟨[fluent.mir_transform_use_of_asm_note], [], [],
        by simp [RequiresUnsafeDetail.add_subdiagnostics, Diag.note]⟩
  | InitializingTypeWith =>
      exact ⟨[fluent.mir_transform_initializing_valid_range_note], [], [],
        by simp [RequiresUnsafeDetail.add_subdiagnostics, Diag.note]⟩
  | CastOfPointerToInt =>
      exact ⟨[fluent.mir_transform_const_ptr2int_note], [], [],
        by simp [RequiresUnsafeDetail.add_subdiagnostics, Diag.note]⟩
  | UseOfMutableStatic =>
      exact ⟨[fluent.mir_transform_use_of_static_mut_note], [], [],
        by simp [RequiresUnsafeDetail.add_subdiagnostics, Diag.note]⟩
  | UseOfExternStatic =>
      exact ⟨[fluent.mir_transform_use_of_extern_static_note], [], [],
        by simp [RequiresUnsafeDetail.add_subdiagnostics, Diag.note]⟩
  | DerefOfRawPointer =>
      exact ⟨[fluent.mir_transform_deref_ptr_note], [], [],
        by simp [RequiresUnsafeDetail.add_subdiagnostics, Diag.note]⟩
  | AccessToUnionField =>
      exact ⟨[fluent.mir_transform_union_access_note], [], [],
        by simp [RequiresUnsafeDetail.add_subdiagnostics, Diag.note]⟩
  | MutationOfLayoutConstrainedField =>
      exact ⟨[fluent.mir_transform_mutation_layout_constrained_note], [], [],
        by simp [RequiresUnsafeDetail.add_subdiagnostics, Diag.note]⟩
  | BorrowOfLayoutConstrainedField =>
      exact ⟨[fluent.mir_transform_mutation_layout_constrained_borrow_note], [], [],
        by simp [RequiresUnsafeDetail.add_subdiagnostics, Diag.note]⟩

theorem RequiresUnsafeDetail.add_subdiagnostics_message
    (self : RequiresUnsafeDetail) (d : Diag) :
    (self.add_subdiagnostics d).message = d.message := by
  obtain ⟨ns, hs, as_, h⟩ := self.add_subdiagnostics_effect d
  rw [h]

theorem RequiresUnsafeDetail.add_subdiagnostics_code
    (self : RequiresUnsafeDetail) (d : Diag) :
    (self.add_subdiagnostics d).code = d.code := by
  obtain ⟨ns, hs, as_, h⟩ := self.add_subdiagnostics_effect d
  rw [h]

theorem RequiresUnsafeDetail.add_subdiagnostics_primarySpan
    (self : RequiresUnsafeDetail) (d : Diag) :
    (self.add_subdiagnostics d).primarySpan = d.primarySpan := by
  obtain ⟨ns, hs, as_, h⟩ := self.add_subdiagnostics_effect d
  rw [h]

theorem RequiresUnsafeDetail.add_subdiagnostics_labels
    (self : RequiresUnsafeDetail) (d : Diag) :
    (self.add_subdiagnostics d).labels = d.labels := by
  obtain ⟨ns, hs, as_, h⟩ := self.add_subdiagnostics_effect d
  rw [h]

theorem RequiresUnsafeDetail.add_subdiagnostics_spanNotes
    (self : RequiresUnsafeDetail) (d : Diag) :
    (self.add_subdiagnostics d).spanNotes = d.spanNotes := by
  obtain ⟨ns, hs, as_, h⟩ := self.add_subdiagnostics_effect d
  rw [h]

theorem RequiresUnsafeDetail.add_subdiagnostics_suggestions
    (self : RequiresUnsafeDetail) (d : Diag) :
    (self.add_subdiagnostics d).suggestions = d.suggestions := by
  obtain ⟨ns, hs, as_, h⟩ := self.add_subdiagnostics_effect d
  rw [h]

theorem RequiresUnsafeDetail.add_subdiagnostics_args_mem
    (self : RequiresUnsafeDetail) (d : Diag)
    (x : String × DiagnosticArgValue) (hx : x ∈ d.args) :
    x ∈ (self.add_subdiagnostics d).args := by
  obtain ⟨ns, hs, as_, h⟩ := self.add_subdiagnostics_effect d
  rw [h]
  exact List.mem_append_left _ hx

theorem Diag.foldl_set_arg (l : List (String × DiagnosticArgValue)) (d : Diag) :
    (l.foldl (fun d nv => d.set_arg nv.1 nv.2) d) = { d with args := d.args ++ l } := by
  induction l generalizing d with
  | nil => simp
  | cons x xs ih =>
      rw [List.foldl_cons, ih]
      simp [Diag.set_arg]

/-- C3: the classifier is a total, deterministic function of the two context
booleans and is independent of the violation kind: for every kind,
`classify kind false b = HardError` for both values of `b`,
`classify kind true false = Lint`, and `classify kind true true = Permitted`. -/
theorem classify_spec (k k2 : UnsafetyViolationDetails) (b : Bool) :
    classify k false b = ClassificationOutcome.HardError ∧
    classify k true false = ClassificationOutcome.Lint ∧
    classify k true true = ClassificationOutcome.Permitted ∧
    (∀ e a, classify k e a = classify k2 e a) :=
  ⟨rfl, rfl, rfl, fun _ _ => rfl⟩

/-- C7: the lint-identifier projection of an `AssertLint` finding depends only
on the variant tag — `ArithmeticOverflow` maps to the arithmetic-overflow lint
and `UnconditionalPanic` to the unconditional-panic lint, for every span and
payload — and the span projection returns the stored span for both variants,
independent of the payload. -/
theorem assert_lint_projections (P : Type) (s : Span) (p : AssertKind P) :
    (AssertLint.ArithmeticOverflow s p).lint = BuiltinLint.ARITHMETIC_OVERFLOW ∧
    (AssertLint.UnconditionalPanic s p).lint = BuiltinLint.UNCONDITIONAL_PANIC ∧
    (AssertLint.ArithmeticOverflow s p).span = s ∧
    (AssertLint.UnconditionalPanic s p).span = s ∧
    (AssertLint.ArithmeticOverflow s p).panic = p ∧
    (AssertLint.UnconditionalPanic s p).panic = p :=
  ⟨rfl, rfl, rfl, rfl, rfl, rfl⟩

/-- C8: for every `AssertLint` finding, the message key is
`mir_transform_arithmetic_overflow` for `ArithmeticOverflow` and
`mir_transform_operation_will_panic` for `UnconditionalPanic`; decorating a
diagnostic labels the stored span with the payload's own rendered message,
appends exactly the (name, value) argument pairs the payload supplies, and
touches no other field. -/
theorem assert_lint_decorate_spec (P : Type) (al : AssertLint P) (d : Diag)
    (s : Span) (p : AssertKind P) :
    (al.decorate_lint d).args = d.args ++ (al.panic).argPairs ∧
    (al.decorate_lint d).labels
      = d.labels ++ [(al.span, (al.panic).diagnostic_message)] ∧
    (al.decorate_lint d).message = d.message ∧
    (al.decorate_lint d).code = d.code ∧
    (al.decorate_lint d).primarySpan = d.primarySpan ∧
    (al.decorate_lint d).notes = d.notes ∧
    (al.decorate_lint d).helps = d.helps ∧
    (al.decorate_lint d).spanNotes = d.spanNotes ∧
    (al.decorate_lint d).suggestions = d.suggestions ∧
    (AssertLint.ArithmeticOverflow s p).msg = fluent.mir_transform_arithmetic_overflow ∧
    (AssertLint.UnconditionalPanic s p).msg = fluent.mir_transform_operation_will_panic := by
  refine ⟨?_, ?_, ?_, ?_, ?_, ?_, ?_, ?_, ?_, rfl, rfl⟩ <;>
    simp [AssertLint.decorate_lint, Diag.foldl_set_arg, Diag.span_label]

/-- C9: diagnostic assembly is deterministic and side-effect free — it is a
pure function from the (outcome, violation detail, optional suggestion)
input to the record, so assembling the same input twice yields records that
are equal field by field, for both the hard-error and the lint path. -/
theorem assembly_deterministic (translate : String → String)
    (r : RequiresUnsafe) (u : UnsafeOpInUnsafeFn) (d : Diag) :
    (let d1 := r.into_diagnostic translate
     let d2 := r.into_diagnostic translate
     d1.message = d2.message ∧ d1.code = d2.code ∧
     d1.primarySpan = d2.primarySpan ∧ d1.labels = d2.labels ∧
     d1.args = d2.args ∧ d1.notes = d2.notes ∧ d1.helps = d2.helps ∧
     d1.spanNotes = d2.spanNotes ∧ d1.suggestions = d2.suggestions) ∧
    (let e1 := u.decorate_lint translate d
     let e2 := u.decorate_lint translate d
     e1.message = e2.message ∧ e1.code = e2.code ∧
     e1.primarySpan = e2.primarySpan ∧ e1.labels = e2.labels ∧
     e1.args = e2.args ∧ e1.notes = e2.notes ∧ e1.helps = e2.helps ∧
     e1.spanNotes = e2.spanNotes ∧ e1.suggestions = e2.suggestions) :=
  ⟨⟨rfl, rfl, rfl, rfl, rfl, rfl, rfl, rfl, rfl⟩,
   ⟨rfl, rfl, rfl, rfl, rfl, rfl, rfl, rfl, rfl⟩⟩

/-- C2: converting a `RequiresUnsafe` value into a hard-error diagnostic
yields a record with stable error code E0133, primary span equal to the
violation's span, that span labelled with the kind's label, the structured
argument `details` set to the eagerly rendered string form of that label,
and the structured argument `op_in_unsafe_fn_allowed` always set to the
policy flag. -/
theorem requires_unsafe_into_diagnostic_spec (translate : String → String)
    (r : RequiresUnsafe) :
    (r.into_diagnostic translate).message = fluent.mir_transform_requires_unsafe ∧
    (r.into_diagnostic translate).code = some "E0133" ∧
    (r.into_diagnostic translate).primarySpan = some r.span ∧
    (r.into_diagnostic translate).labels.head? = some (r.span, r.details.label) ∧
    ("details", DiagnosticArgValue.str (translate r.details.label))
      ∈ (r.into_diagnostic translate).args ∧
    ("op_in_unsafe_fn_allowed", DiagnosticArgValue.boolean r.op_in_unsafe_fn_allowed)
      ∈ (r.into_diagnostic translate).args := by
  rcases r with ⟨sp, det, encl, flag⟩
  cases encl <;>
    simp [RequiresUnsafe.into_diagnostic, Diag.withCode, Diag.set_span,
      Diag.span_label, Diag.set_arg,
      RequiresUnsafeDetail.add_subdiagnostics_message,
      RequiresUnsafeDetail.add_subdiagnostics_code,
      RequiresUnsafeDetail.add_subdiagnostics_primarySpan,
      RequiresUnsafeDetail.add_subdiagnostics_labels,
      RequiresUnsafeDetail.add_subdiagnostics_args_mem]

/-- C5: the assembled hard-error diagnostic carries the secondary
"not inherited" label at the enclosing-context span exactly when that
optional span is present; when it is absent the labels are exactly the
primary label and nothing else. -/
theorem not_inherited_label_iff (translate : String → String)
    (r : RequiresUnsafe) :
    (r.into_diagnostic translate).labels
      = (r.span, r.details.label) ::
        (match r.enclosing with
         | some sp => [(sp, fluent.mir_transform_not_inherited)]
         | none => []) := by
  rcases r with ⟨sp, det, encl, flag⟩
  cases encl <;>
    simp [RequiresUnsafe.into_diagnostic, Diag.withCode, Diag.set_span,
      Diag.span_label, Diag.set_arg,
      RequiresUnsafeDetail.add_subdiagnostics_labels]

/-- C10: decorating an `UnsafeOpInUnsafeFn` lint always sets the eagerly
rendered `details` argument, labels the violation span with the kind's
label, and attaches the kind's subdiagnostics, whether or not the suggestion
triple is present; the presence of the suggestion adds exactly the
signature-anchored note and the two-edit tool-only fix, leaving every other
field of the produced diagnostic identical to the no-suggestion result. -/
theorem suggestion_frame_effect (translate : String → String)
    (det : RequiresUnsafeDetail) (start stop fn_sig : Span) (d : Diag) :
    let d0 := UnsafeOpInUnsafeFn.decorate_lint translate ⟨det, none⟩ d
    let d1 := UnsafeOpInUnsafeFn.decorate_lint translate
      ⟨det, some (start, stop, fn_sig)⟩ d
    d1.message = d0.message ∧
    d1.code = d0.code ∧
    d1.primarySpan = d0.primarySpan ∧
    d1.labels = d0.labels ∧
    d1.args = d0.args ∧
    d1.notes = d0.notes ∧
    d1.helps = d0.helps ∧
    d0.spanNotes = d.spanNotes ∧
    d0.suggestions = d.suggestions ∧
    d1.spanNotes = d0.spanNotes ++ [(fn_sig, fluent.mir_transform_note)] ∧
    d1.suggestions = d0.suggestions ++
      [⟨fluent.mir_transform_suggestion,
        [(start, " unsafe \x7b"), (stop, "\x7d")],
        Applicability.maybeIncorrect, true⟩] ∧
    ("details", DiagnosticArgValue.str (translate det.label)) ∈ d0.args ∧
    (det.span, det.label) ∈ d0.labels := by
  intro d0 d1
  simp only [d0, d1, UnsafeOpInUnsafeFn.decorate_lint]
  simp [Diag.span_note, Diag.tool_only_multipart_suggestion, Diag.set_arg,
    Diag.span_label,
    RequiresUnsafeDetail.add_subdiagnostics_message,
    RequiresUnsafeDetail.add_subdiagnostics_code,
    RequiresUnsafeDetail.add_subdiagnostics_primarySpan,
    RequiresUnsafeDetail.add_subdiagnostics_labels,
    RequiresUnsafeDetail.add_subdiagnostics_spanNotes,
    RequiresUnsafeDetail.add_subdiagnostics_suggestions,
    RequiresUnsafeDetail.add_subdiagnostics_args_mem]

/-- C1: for a `CallToFunctionWith` violation, `add_subdiagnostics` always
attaches the help message and the `missing_target_features` argument (the
and-joined missing list plus its count), and it attaches the target-feature
note together with the `build_target_features` argument (and-joined list
plus count) exactly when `build_enabled` is non-empty; on the assembled
hard-error diagnostic, a `build_target_features` argument and the
target-feature note are present if and only if `build_enabled` is
non-empty. -/
theorem call_to_function_with_subdiagnostics
    (sp sp0 : Span) (missing build_enabled : List String) (d : Diag)
    (translate : String → String) (encl : Option Span) (flag : Bool) :
    RequiresUnsafeDetail.add_subdiagnostics
        ⟨sp, .CallToFunctionWith missing build_enabled⟩ d
      = { d with
          helps := d.helps ++ [fluent.mir_transform_target_feature_call_help],
          args := d.args
            ++ [("missing_target_features",
                  DiagnosticArgValue.strListSepByAnd missing),
                ("missing_target_features_count",
                  DiagnosticArgValue.num missing.length)]
            ++ (if build_enabled.isEmpty then []
                else [("build_target_features",
                        DiagnosticArgValue.strListSepByAnd build_enabled),
                      ("build_target_features_count",
                        DiagnosticArgValue.num build_enabled.length)]),
          notes := d.notes
            ++ (if build_enabled.isEmpty then []
                else [fluent.mir_transform_target_feature_call_note]) } ∧
    ((∃ v, ("build_target_features", v) ∈
        (RequiresUnsafe.into_diagnostic translate
          ⟨sp0, ⟨sp, .CallToFunctionWith missing build_enabled⟩, encl, flag⟩).args)
      ↔ build_enabled ≠ []) ∧
    ((fluent.mir_transform_target_feature_call_note ∈
        (RequiresUnsafe.into_diagnostic translate
          ⟨sp0, ⟨sp, .CallToFunctionWith missing build_enabled⟩, encl, flag⟩).notes)
      ↔ build_enabled ≠ []) := by
  refine ⟨?_, ?_, ?_⟩ <;>
    cases encl <;> cases build_enabled <;>
      simp [RequiresUnsafe.into_diagnostic, RequiresUnsafeDetail.add_subdiagnostics,
        Diag.withCode, Diag.set_span, Diag.span_label, Diag.set_arg, Diag.note,
        Diag.help]

/-- C4: when the suggestion triple produced by the suggester is present, the
decorated lint carries a note at the signature span and a tool-only
multipart suggestion with applicability `MaybeIncorrect` whose two edits are
exactly the insertion of a space plus the opening token at the body-start
span and the insertion of the closing token at the body-end span; for a
non-empty function body the two insertion spans differ. -/
theorem unsafe_block_suggestion_spec (translate : String → String)
    (det : RequiresUnsafeDetail) (body fn_sig : Span) (d : Diag)
    (h : body.lo < body.hi) :
    let t := UnsafeBlockSuggester.suggest body fn_sig
    let d1 := UnsafeOpInUnsafeFn.decorate_lint translate ⟨det, some t⟩ d
    d1.spanNotes = d.spanNotes ++ [(fn_sig, fluent.mir_transform_note)] ∧
    d1.suggestions = d.suggestions ++
      [⟨fluent.mir_transform_suggestion,
        [(t.1, " unsafe \x7b"), (t.2.1, "\x7d")],
        Applicability.maybeIncorrect, true⟩] ∧
    t.1 ≠ t.2.1 := by
  intro t d1
  refine ⟨?_, ?_, ?_⟩
  · simp [d1, t, UnsafeBlockSuggester.suggest, UnsafeOpInUnsafeFn.decorate_lint,
      Diag.span_note, Diag.tool_only_multipart_suggestion, Diag.set_arg,
      Diag.span_label, RequiresUnsafeDetail.add_subdiagnostics_spanNotes]
  · simp [d1, t, UnsafeBlockSuggester.suggest, UnsafeOpInUnsafeFn.decorate_lint,
      Diag.span_note, Diag.tool_only_multipart_suggestion, Diag.set_arg,
      Diag.span_label, RequiresUnsafeDetail.add_subdiagnostics_suggestions]
  · simp only [t, UnsafeBlockSuggester.suggest]
    intro hEq
    exact absurd (congrArg Span.lo hEq) (Nat.ne_of_lt h)

/-- Witness for C4 at a concrete input: body span ⟨0, 10⟩, signature span
⟨0, 2⟩, a raw-pointer-dereference detail, identity translation, and a fresh
diagnostic. -/
theorem unsafe_block_suggestion_spec_witness :
    (Span.mk 0 10).lo < (Span.mk 0 10).hi ∧
    (let t := UnsafeBlockSuggester.suggest ⟨0, 10⟩ ⟨0, 2⟩
     let d1 := UnsafeOpInUnsafeFn.decorate_lint id
       ⟨⟨⟨3, 4⟩, .DerefOfRawPointer⟩, some t⟩ { message := "m" }
     d1.spanNotes = ({ message := "m" } : Diag).spanNotes
        ++ [(⟨0, 2⟩, fluent.mir_transform_note)] ∧
     d1.suggestions = ({ message := "m" } : Diag).suggestions ++
       [⟨fluent.mir_transform_suggestion,
         [(t.1, " unsafe \x7b"), (t.2.1, "\x7d")],
         Applicability.maybeIncorrect, true⟩] ∧
     t.1 ≠ t.2.1) :=
  ⟨by decide,
    unsafe_block_suggestion_spec id ⟨⟨3, 4⟩, .DerefOfRawPointer⟩ ⟨0, 10⟩ ⟨0, 2⟩
      { message := "m" } (by decide)⟩

/-- C6: a `CallToFunctionWith` violation with an empty missing-features list
is rejected at construction time (modelled as `Except.error`, standing for
the assertion/panic-level failure) and is never produced for rendering:
every successfully constructed record has a non-empty missing list. -/
theorem call_to_function_with_empty_missing_rejected :
    (∀ build_enabled : List String,
      mkCallToFunctionWith [] build_enabled =
        .error "assertion failed: CallToFunctionWith requires a non-empty missing_features list") ∧
    (∀ (missing build_enabled : List String) (v : UnsafetyViolationDetails),
      mkCallToFunctionWith missing build_enabled = .ok v →
        missing ≠ [] ∧
        v = .CallToFunctionWith missing build_enabled) := by
  constructor
  · intro be
    simp [mkCallToFunctionWith]
  · intro missing be v h
    cases missing with
    | nil => simp [mkCallToFunctionWith] at h
    | cons m ms =>
        simp [mkCallToFunctionWith] at h
        exact ⟨List.cons_ne_nil m ms, h.symm⟩

/-- Witness for C6 at a concrete input: constructing with
missing = ["avx2"] and build_enabled = [] succeeds, and the theorem
yields the non-emptiness guarantee for that record. -/
theorem call_to_function_with_empty_missing_rejected_witness :
    (["avx2"] : List String) ≠ [] ∧
    UnsafetyViolationDetails.CallToFunctionWith ["avx2"] []
      = .CallToFunctionWith ["avx2"] [] :=
  call_to_function_with_empty_missing_rejected.2 ["avx2"] []
    (.CallToFunctionWith ["avx2"] []) (by simp [mkCallToFunctionWith])

end MirTransform
